import Mathlib

/-!
Shallow embedding of ShaderCrashingAssert (src/ShaderCrashingAssert.h), a
single-header D3D12 library.  The header has two independent halves:

* a C++ half: `ShaderCrashingAssertContext` with `Init` (four resource-creation
  steps against an `ID3D12Device`) and `GetUAVCPUDescriptorHandle`;
* an HLSL half: the resource-declaration construct
  `SHADER_CRASHING_ASSERT_RESOURCE` and the statement construct
  `SHADER_CRASHING_ASSERT(expr)`, which conditionally stores a fixed sentinel
  word at byte offset 0 of the bound buffer.

The C++ half is embedded as a straight-line function over a device oracle
(`Device`) that supplies the `HRESULT` of each fallible creation call and the
identity of each object it creates; `Init` threads the local pointers
(`ID3D12Heap* heap`, `ID3D12Resource* buf`, the member `m_pDescriptorHeap`)
as `Option Nat` (with `none` for `nullptr`) and records every call made
through an object pointer in an event trace, so that skipped steps, `SetName`
calls, the `CreateUnorderedAccessView` write and the guarded `Release` calls
are all observable.  `HRESULT` is embedded as `Int`, with `SUCCEEDED hr`
meaning `0 ≤ hr`, matching the sign-bit test of the C macro.

The HLSL half is embedded as a pure update on the buffer contents: a
`RWByteAddressBuffer` is a map from (4-aligned) byte address to the 32-bit
word stored there, and `Store` writes one word, truncated to 32 bits.
-/

namespace SCA

/-! ## D3D12 / DXGI constants used by the header (values from the SDK headers) -/

def S_OK : Int := 0

def D3D12_HEAP_TYPE_DEFAULT : Nat := 1

def D3D12_HEAP_FLAG_ALLOW_ONLY_BUFFERS : Nat := 0xc0

def D3D12_RESOURCE_DIMENSION_BUFFER : Nat := 1

def D3D12_TEXTURE_LAYOUT_ROW_MAJOR : Nat := 1

def D3D12_RESOURCE_FLAG_ALLOW_UNORDERED_ACCESS : Nat := 0x4

def D3D12_DESCRIPTOR_HEAP_TYPE_CBV_SRV_UAV : Nat := 0

def DXGI_FORMAT_R32_TYPELESS : Nat := 39

def D3D12_UAV_DIMENSION_BUFFER : Nat := 1

def D3D12_BUFFER_UAV_FLAG_RAW : Nat := 1

/-- `sizeof(DWORD)` in C++: 4 bytes. -/
def sizeofDWORD : Nat := 4

/-- The `SUCCEEDED(hr)` macro: an `HRESULT` denotes success iff its sign bit
is clear, i.e. iff it is nonnegative. -/
def SUCCEEDED (hr : Int) : Bool := decide (0 ≤ hr)

/-! ## Descriptor structures (only the fields the header assigns; the
remaining fields of the zero-initialized C structs stay zero and are never
read by this code). -/

structure D3D12_HEAP_DESC where
  SizeInBytes : Nat
  PropertiesType : Nat
  Flags : Nat
deriving DecidableEq

structure D3D12_RESOURCE_DESC where
  Dimension : Nat
  Width : Nat
  Height : Nat
  DepthOrArraySize : Nat
  MipLevels : Nat
  SampleDescCount : Nat
  Layout : Nat
  Flags : Nat
deriving DecidableEq

structure D3D12_DESCRIPTOR_HEAP_DESC where
  HeapType : Nat  -- the C field is named `Type`, a reserved word in Lean
  NumDescriptors : Nat
deriving DecidableEq

structure D3D12_UNORDERED_ACCESS_VIEW_DESC where
  Format : Nat
  ViewDimension : Nat
  BufferFlags : Nat
  BufferNumElements : Nat
deriving DecidableEq

/-- Model of each descriptor heap's `GetCPUDescriptorHandleForHeapStart`
value: the CPU handle of a descriptor heap's single slot is identified with
the heap object's id (an abstract injection). -/
def descriptorHeapCPUStart (heapObj : Nat) : Nat := heapObj

/-- The record of a `CreateUnorderedAccessView` call: which resource the view
describes, the destination CPU descriptor handle, and the view description. -/
structure UAVWrite where
  pResource : Option Nat
  DestDescriptor : Nat
  desc : D3D12_UNORDERED_ACCESS_VIEW_DESC
deriving DecidableEq

/-! ## The device oracle and the event trace -/

/-- Oracle for one run of `Init` against an `ID3D12Device`: the `HRESULT`
each fallible creation call returns, and the id of the object it creates when
it succeeds.  (`CreateUnorderedAccessView` returns `void` in the D3D12 API,
so it has no `HRESULT` field.) -/
structure Device where
  createHeapHr : Int
  heapId : Nat
  createPlacedResourceHr : Int
  bufId : Nat
  createDescriptorHeapHr : Int
  descHeapId : Nat
deriving DecidableEq

/-- Which local object pointer of `Init` a method call goes through. -/
inductive Site where
  | heap
  | buf
  | descHeap
deriving DecidableEq

/-- Observable events of one run of `Init`.  Method calls record the receiver
pointer as written in the source (`none` = `nullptr`), so a call through a
null pointer would be visible in the trace. -/
inductive Event where
  | createHeapCall
  | createPlacedResourceCall (pHeap : Option Nat)
  | createDescriptorHeapCall
  | setName (s : Site) (receiver : Option Nat)
  | getHandleCall (receiver : Option Nat)
  | release (s : Site) (receiver : Option Nat)
deriving DecidableEq

/-- `p->GetCPUDescriptorHandleForHeapStart()` as a partial function of the
receiver pointer (the call through `none` has no defined result). -/
def getCPUDescriptorHandleForHeapStart (p : Option Nat) : Option Nat :=
  p.map descriptorHeapCPUStart

/-! ## The context class -/

/-- `ShaderCrashingAssertContext`: its only data member is
`ID3D12DescriptorHeap* m_pDescriptorHeap`. -/
structure ShaderCrashingAssertContext where
  m_pDescriptorHeap : Option Nat
deriving DecidableEq

/-- A default-constructed context: `m_pDescriptorHeap = nullptr`. -/
def defaultContext : ShaderCrashingAssertContext := ⟨none⟩

/-- Everything one run of `Init` produces: the returned `HRESULT`, the
post-state of the context, the event trace, the descriptions passed to the
creation calls that were attempted, and the view write if one was made. -/
structure InitResult where
  hr : Int
  ctx : ShaderCrashingAssertContext
  events : List Event
  heapDesc : Option D3D12_HEAP_DESC
  bufDesc : Option D3D12_RESOURCE_DESC
  descHeapDesc : Option D3D12_DESCRIPTOR_HEAP_DESC
  uavWrite : Option UAVWrite
deriving DecidableEq

/-- Straight-line embedding of `ShaderCrashingAssertContext::Init`.  Each
`let` mirrors one statement of the C++ body, in source order; shadowed names
(`hr`, `events`) model mutation.  An out-pointer of a failed creation call is
`none`, following the COM convention the D3D12 create functions obey. -/
def ShaderCrashingAssertContext.Init (dev : Device) (c : ShaderCrashingAssertContext) :
    InitResult :=
  let size : Nat := 32
  -- Create heap
  let heapDesc : D3D12_HEAP_DESC :=
    { SizeInBytes := size
      PropertiesType := D3D12_HEAP_TYPE_DEFAULT
      Flags := D3D12_HEAP_FLAG_ALLOW_ONLY_BUFFERS }
  let hr : Int := dev.createHeapHr
  let heap : Option Nat := if SUCCEEDED hr then some dev.heapId else none
  let events : List Event := [Event.createHeapCall]
  -- if (SUCCEEDED(hr)) { heap->SetName(L"ShaderCrashingAssert Heap"); }
  let events := if SUCCEEDED hr then events ++ [Event.setName Site.heap heap] else events
  -- Create buffer
  let resDesc : D3D12_RESOURCE_DESC :=
    { Dimension := D3D12_RESOURCE_DIMENSION_BUFFER
      Width := size
      Height := 1
      DepthOrArraySize := 1
      MipLevels := 1
      SampleDescCount := 1
      Layout := D3D12_TEXTURE_LAYOUT_ROW_MAJOR
      Flags := D3D12_RESOURCE_FLAG_ALLOW_UNORDERED_ACCESS }
  let bufAttempted : Bool := SUCCEEDED hr
  let events := if bufAttempted then events ++ [Event.createPlacedResourceCall heap] else events
  let buf : Option Nat :=
    if bufAttempted && SUCCEEDED dev.createPlacedResourceHr then some dev.bufId else none
  let hr : Int := if bufAttempted then dev.createPlacedResourceHr else hr
  -- if (SUCCEEDED(hr)) { buf->SetName(L"ShaderCrashingAssert Buffer"); }
  let events := if SUCCEEDED hr then events ++ [Event.setName Site.buf buf] else events
  -- Create descriptor heap
  let descHeapDesc : D3D12_DESCRIPTOR_HEAP_DESC :=
    { HeapType := D3D12_DESCRIPTOR_HEAP_TYPE_CBV_SRV_UAV
      NumDescriptors := 1 }
  let dhAttempted : Bool := SUCCEEDED hr
  let events := if dhAttempted then events ++ [Event.createDescriptorHeapCall] else events
  let pDescriptorHeap : Option Nat :=
    if dhAttempted then
      (if SUCCEEDED dev.createDescriptorHeapHr then some dev.descHeapId else none)
    else c.m_pDescriptorHeap
  let hr : Int := if dhAttempted then dev.createDescriptorHeapHr else hr
  -- if (SUCCEEDED(hr)) { m_pDescriptorHeap->SetName(L"..."); }
  let events := if SUCCEEDED hr then events ++ [Event.setName Site.descHeap pDescriptorHeap] else events
  -- Setup the descriptor
  let uavDesc : D3D12_UNORDERED_ACCESS_VIEW_DESC :=
    { Format := DXGI_FORMAT_R32_TYPELESS
      ViewDimension := D3D12_UAV_DIMENSION_BUFFER
      BufferFlags := D3D12_BUFFER_UAV_FLAG_RAW
      BufferNumElements := size / sizeofDWORD }
  let events := if SUCCEEDED hr then events ++ [Event.getHandleCall pDescriptorHeap] else events
  let uavWrite : Option UAVWrite :=
    if SUCCEEDED hr then
      (getCPUDescriptorHandleForHeapStart pDescriptorHeap).map
        (fun dest => { pResource := buf, DestDescriptor := dest, desc := uavDesc })
    else none
  -- Release buffer and heap:  if (buf) { buf->Release(); }  if (heap) { heap->Release(); }
  let events := if buf.isSome then events ++ [Event.release Site.buf buf] else events
  let events := if heap.isSome then events ++ [Event.release Site.heap heap] else events
  { hr := hr
    ctx := ⟨pDescriptorHeap⟩
    events := events
    heapDesc := some heapDesc
    bufDesc := if bufAttempted then some resDesc else none
    descHeapDesc := if dhAttempted then some descHeapDesc else none
    uavWrite := uavWrite }

/-- `GetUAVCPUDescriptorHandle`: forwards to
`m_pDescriptorHeap->GetCPUDescriptorHandleForHeapStart()`; the result is
`none` exactly when the member pointer is null (the undefined-behavior case
the header leaves to the caller). -/
def ShaderCrashingAssertContext.GetUAVCPUDescriptorHandle
    (c : ShaderCrashingAssertContext) : Option Nat :=
  getCPUDescriptorHandleForHeapStart c.m_pDescriptorHeap

/-- All three fallible creation steps of `Init` succeed for this oracle. -/
def allSucceeded (dev : Device) : Bool :=
  SUCCEEDED dev.createHeapHr && SUCCEEDED dev.createPlacedResourceHr &&
    SUCCEEDED dev.createDescriptorHeapHr

/-! ## HLSL half -/

/-- The HLSL resource types that can appear in the declaration the header
emits. -/
inductive HLSLResourceType where
  | RWByteAddressBuffer
deriving DecidableEq

/-- An HLSL global resource declaration: its access qualifier, resource type
and identifier. -/
structure HLSLResourceDecl where
  globallycoherent : Bool
  resType : HLSLResourceType
  name : String
deriving DecidableEq

/-- `SHADER_CRASHING_ASSERT_RESOURCE` expands to
`globallycoherent RWByteAddressBuffer ShaderCrashingAssertResource1`. -/
def SHADER_CRASHING_ASSERT_RESOURCE : HLSLResourceDecl :=
  { globallycoherent := true
    resType := HLSLResourceType.RWByteAddressBuffer
    name := "ShaderCrashingAssertResource1" }

/-- Contents of the bound `RWByteAddressBuffer`: the 32-bit word stored at
each (4-aligned) byte address.  All accesses in this code use address 0. -/
def BufferState := Nat → Nat

/-- `RWByteAddressBuffer.Store(address, value)`: writes the 32-bit word
`value` at byte address `address`, leaving every other word unchanged. -/
def Store (b : BufferState) (address value : Nat) : BufferState :=
  fun a => if a = address then value % 2 ^ 32 else b a

/-- The sentinel stored by the assertion construct.  (The header notes that
the specific numerical value does not matter.) -/
def SCA_SENTINEL : Nat := 0x23898f4a

/-- `SHADER_CRASHING_ASSERT(expr)` as a pure update on the buffer: the
expansion is `do { [branch] if (!(expr)) { ...Store(0, 0x23898f4a); } }
while(false)`, i.e. store the sentinel at byte offset 0 when the condition is
false, do nothing when it is true. -/
def SHADER_CRASHING_ASSERT (expr : Bool) (b : BufferState) : BufferState :=
  if !expr then Store b 0 SCA_SENTINEL else b

/-- `SHADER_CRASHING_ASSERT(expr)` where the condition is an effectful
expression evaluated against a state `s`: the expansion contains a single
occurrence of `expr`, inside the one conditional test, so the expression's
effect happens exactly once per execution.  `cond` returns the value of the
expression together with the post-evaluation state. -/
def SHADER_CRASHING_ASSERT_eval {σ : Type} (cond : σ → Bool × σ) (s : σ)
    (b : BufferState) : BufferState × σ :=
  let r := cond s
  if !r.1 then (Store b 0 SCA_SENTINEL, r.2) else (b, r.2)

/-- A sequence of executions of the assertion construct, one condition value
per invocation, all against the single shared buffer. -/
def runAsserts (conds : List Bool) (b : BufferState) : BufferState :=
  conds.foldl (fun bb e => SHADER_CRASHING_ASSERT e bb) b

/-- Tests whether an event is a `Release` call (on either transient object). -/
def Event.isRelease : Event → Bool
  | Event.release _ _ => true
  | Event.createHeapCall => false
  | Event.createPlacedResourceCall _ => false
  | Event.createDescriptorHeapCall => false
  | Event.setName _ _ => false
  | Event.getHandleCall _ => false

/-- Example oracles used as concrete inputs: every call succeeding, and each
creation call failing with `E_OUTOFMEMORY` (`0x8007000e`, i.e. the 32-bit
signed value -2147024882). -/
def devAllOk : Device :=
  { createHeapHr := 0, heapId := 1, createPlacedResourceHr := 0, bufId := 2
    createDescriptorHeapHr := 0, descHeapId := 3 }

def devHeapFail : Device :=
  { createHeapHr := -2147024882, heapId := 1, createPlacedResourceHr := 0, bufId := 2
    createDescriptorHeapHr := 0, descHeapId := 3 }

def devBufFail : Device :=
  { createHeapHr := 0, heapId := 1, createPlacedResourceHr := -2147024882, bufId := 2
    createDescriptorHeapHr := 0, descHeapId := 3 }

def devDescHeapFail : Device :=
  { createHeapHr := 0, heapId := 1, createPlacedResourceHr := 0, bufId := 2
    createDescriptorHeapHr := -2147024882, descHeapId := 3 }

def devAllOk2 : Device :=
  { createHeapHr := 0, heapId := 4, createPlacedResourceHr := 0, bufId := 5
    createDescriptorHeapHr := 0, descHeapId := 6 }

/-! ## Helper lemmas (shared) -/

lemma SCA_SENTINEL_mod : SCA_SENTINEL % 2 ^ 32 = SCA_SENTINEL := by decide

lemma Store_sentinel_at_zero (b : BufferState) :
    Store b 0 SCA_SENTINEL 0 = SCA_SENTINEL := by
  show (if (0 : Nat) = 0 then SCA_SENTINEL % 2 ^ 32 else b 0) = SCA_SENTINEL
  rw [if_pos rfl]
  decide

lemma Store_sentinel_other (b : BufferState) (a : Nat) (ha : a ≠ 0) :
    Store b 0 SCA_SENTINEL a = b a := by
  simp [Store, ha]

/-- Once the first word holds the sentinel, any further sequence of assertion
executions leaves it holding the sentinel. -/
lemma runAsserts_preserve (conds : List Bool) (b : BufferState)
    (h : b 0 = SCA_SENTINEL) : runAsserts conds b 0 = SCA_SENTINEL := by
  induction conds generalizing b with
  | nil => simpa [runAsserts]
  | cons c cs ih =>
    simp only [runAsserts, List.foldl_cons] at ih ⊢
    apply ih
    cases c <;> simp [SHADER_CRASHING_ASSERT, Store_sentinel_at_zero, h]

/-- The assertion with a false condition is idempotent on the buffer. -/
lemma assert_false_idem (b : BufferState) :
    SHADER_CRASHING_ASSERT false (SHADER_CRASHING_ASSERT false b) =
      SHADER_CRASHING_ASSERT false b := by
  funext a
  by_cases ha : a = 0 <;> simp [SHADER_CRASHING_ASSERT, Store, ha]

/-- `Init` succeeds exactly when all three fallible creation calls succeed. -/
lemma Init_success_iff (dev : Device) (c : ShaderCrashingAssertContext) :
    SUCCEEDED (ShaderCrashingAssertContext.Init dev c).hr = allSucceeded dev := by
  by_cases h1 : SUCCEEDED dev.createHeapHr = true <;>
    by_cases h2 : SUCCEEDED dev.createPlacedResourceHr = true <;>
      by_cases h3 : SUCCEEDED dev.createDescriptorHeapHr = true <;>
        simp_all [ShaderCrashingAssertContext.Init, allSucceeded]

end SCA

namespace SCA

/-! ## Claim theorems: C++ half -/

/-- C3: `Init` is fail-fast.  If heap creation fails, the buffer, descriptor
heap and view creation calls are never made and the heap-creation failure
code is returned; in general the first failing creation step skips every
later creation step and its code is the returned result. -/
theorem Init_fail_fast (dev : Device) (c : ShaderCrashingAssertContext) :
    (SUCCEEDED dev.createHeapHr = false →
      (ShaderCrashingAssertContext.Init dev c).hr = dev.createHeapHr ∧
      (∀ p, Event.createPlacedResourceCall p ∉ (ShaderCrashingAssertContext.Init dev c).events) ∧
      Event.createDescriptorHeapCall ∉ (ShaderCrashingAssertContext.Init dev c).events ∧
      (ShaderCrashingAssertContext.Init dev c).bufDesc = none ∧
      (ShaderCrashingAssertContext.Init dev c).descHeapDesc = none ∧
      (ShaderCrashingAssertContext.Init dev c).uavWrite = none) ∧
    (SUCCEEDED dev.createHeapHr = true → SUCCEEDED dev.createPlacedResourceHr = false →
      (ShaderCrashingAssertContext.Init dev c).hr = dev.createPlacedResourceHr ∧
      Event.createDescriptorHeapCall ∉ (ShaderCrashingAssertContext.Init dev c).events ∧
      (ShaderCrashingAssertContext.Init dev c).descHeapDesc = none ∧
      (ShaderCrashingAssertContext.Init dev c).uavWrite = none) ∧
    (SUCCEEDED dev.createHeapHr = true → SUCCEEDED dev.createPlacedResourceHr = true →
      SUCCEEDED dev.createDescriptorHeapHr = false →
      (ShaderCrashingAssertContext.Init dev c).hr = dev.createDescriptorHeapHr ∧
      (ShaderCrashingAssertContext.Init dev c).uavWrite = none) := by
  refine ⟨fun h1 => ?_, fun h1 h2 => ?_, fun h1 h2 h3 => ?_⟩
  · simp [ShaderCrashingAssertContext.Init, h1]
  · simp [ShaderCrashingAssertContext.Init, h1, h2]
  · simp [ShaderCrashingAssertContext.Init, h1, h2, h3]

/-- Witness for C3: a device whose heap creation fails with `E_OUTOFMEMORY`
makes `Init` return that code with no later creation call made, and a device
whose buffer creation fails surfaces that code. -/
theorem Init_fail_fast_witness :
    (ShaderCrashingAssertContext.Init devHeapFail defaultContext).hr = -2147024882 ∧
    Event.createDescriptorHeapCall ∉
      (ShaderCrashingAssertContext.Init devHeapFail defaultContext).events ∧
    (ShaderCrashingAssertContext.Init devHeapFail defaultContext).uavWrite = none ∧
    (ShaderCrashingAssertContext.Init devBufFail defaultContext).hr = -2147024882 := by
  obtain ⟨ha, -, hc, -, -, hf⟩ :=
    (Init_fail_fast devHeapFail defaultContext).1 (by decide)
  obtain ⟨hg, -, -, -⟩ :=
    (Init_fail_fast devBufFail defaultContext).2.1 (by decide) (by decide)
  exact ⟨ha, hc, hf, hg⟩

/-- C6 counterexample: the view-creation step cannot surface a failure code
through `Init`'s returned status.  `CreateUnorderedAccessView` returns
`void`, so there is no run in which the first three steps succeed and `Init`
still returns failure — refuting the claim that each of the FOUR steps can
surface a failure code. -/
theorem view_step_failure_unrepresentable :
    ¬ ∃ (dev : Device) (c : ShaderCrashingAssertContext),
      SUCCEEDED dev.createHeapHr = true ∧
      SUCCEEDED dev.createPlacedResourceHr = true ∧
      SUCCEEDED dev.createDescriptorHeapHr = true ∧
      SUCCEEDED (ShaderCrashingAssertContext.Init dev c).hr = false := by
  rintro ⟨dev, c, h1, h2, h3, h4⟩
  rw [Init_success_iff] at h4
  simp [allSucceeded, h1, h2, h3] at h4

/-- C6 (amended): each of the three `HRESULT`-returning creation steps —
heap, buffer, descriptor heap — can surface an underlying failure code as
`Init`'s returned status; the fourth step, view creation, returns no status,
and `Init` succeeds whenever the first three steps succeed. -/
theorem Init_failure_surfacing :
    (∃ dev : Device, SUCCEEDED dev.createHeapHr = false ∧
      (ShaderCrashingAssertContext.Init dev defaultContext).hr = dev.createHeapHr) ∧
    (∃ dev : Device, SUCCEEDED dev.createHeapHr = true ∧
      SUCCEEDED dev.createPlacedResourceHr = false ∧
      (ShaderCrashingAssertContext.Init dev defaultContext).hr =
        dev.createPlacedResourceHr) ∧
    (∃ dev : Device, SUCCEEDED dev.createHeapHr = true ∧
      SUCCEEDED dev.createPlacedResourceHr = true ∧
      SUCCEEDED dev.createDescriptorHeapHr = false ∧
      (ShaderCrashingAssertContext.Init dev defaultContext).hr =
        dev.createDescriptorHeapHr) ∧
    (∀ (dev : Device) (c : ShaderCrashingAssertContext), allSucceeded dev = true →
      SUCCEEDED (ShaderCrashingAssertContext.Init dev c).hr = true) := by
  refine ⟨⟨devHeapFail, by decide, by decide⟩,
    ⟨devBufFail, by decide, by decide, by decide⟩,
    ⟨devDescHeapFail, by decide, by decide, by decide, by decide⟩,
    fun dev c h => ?_⟩
  rw [Init_success_iff, h]

/-- Witness for C6's amended claim: with every creation call succeeding,
`Init` returns success. -/
theorem Init_failure_surfacing_witness :
    SUCCEEDED (ShaderCrashingAssertContext.Init devAllOk defaultContext).hr = true :=
  Init_failure_surfacing.2.2.2 devAllOk defaultContext (by decide)

/-- C2: after a successful `Init`, `GetUAVCPUDescriptorHandle` returns the
CPU handle of the descriptor heap's single slot (a heap created with one
CBV/SRV/UAV descriptor), and the view written into that slot is an
unordered-access view of the backing buffer with raw flag, `R32_TYPELESS`
format, buffer dimension, and `32 / sizeof(DWORD) = 8` four-byte elements
covering the whole 32-byte buffer, where the buffer was created with width 32
and the allow-unordered-access flag. -/
theorem Init_success_view (dev : Device) (c : ShaderCrashingAssertContext)
    (h : SUCCEEDED (ShaderCrashingAssertContext.Init dev c).hr = true) :
    (ShaderCrashingAssertContext.Init dev c).ctx.GetUAVCPUDescriptorHandle =
      some (descriptorHeapCPUStart dev.descHeapId) ∧
    (ShaderCrashingAssertContext.Init dev c).uavWrite = some
      { pResource := some dev.bufId
        DestDescriptor := descriptorHeapCPUStart dev.descHeapId
        desc :=
          { Format := DXGI_FORMAT_R32_TYPELESS
            ViewDimension := D3D12_UAV_DIMENSION_BUFFER
            BufferFlags := D3D12_BUFFER_UAV_FLAG_RAW
            BufferNumElements := 32 / sizeofDWORD } } ∧
    32 / sizeofDWORD = 8 ∧
    (32 / sizeofDWORD) * 4 = 32 ∧
    (ShaderCrashingAssertContext.Init dev c).bufDesc = some
      { Dimension := D3D12_RESOURCE_DIMENSION_BUFFER
        Width := 32
        Height := 1
        DepthOrArraySize := 1
        MipLevels := 1
        SampleDescCount := 1
        Layout := D3D12_TEXTURE_LAYOUT_ROW_MAJOR
        Flags := D3D12_RESOURCE_FLAG_ALLOW_UNORDERED_ACCESS } ∧
    (ShaderCrashingAssertContext.Init dev c).descHeapDesc = some
      { HeapType := D3D12_DESCRIPTOR_HEAP_TYPE_CBV_SRV_UAV
        NumDescriptors := 1 } := by
  rw [Init_success_iff] at h
  have h1 : SUCCEEDED dev.createHeapHr = true := by
    simp [allSucceeded] at h
    exact h.1.1
  have h2 : SUCCEEDED dev.createPlacedResourceHr = true := by
    simp [allSucceeded] at h
    exact h.1.2
  have h3 : SUCCEEDED dev.createDescriptorHeapHr = true := by
    simp [allSucceeded] at h
    exact h.2
  simp [ShaderCrashingAssertContext.Init, h1, h2, h3,
    ShaderCrashingAssertContext.GetUAVCPUDescriptorHandle,
    getCPUDescriptorHandleForHeapStart, sizeofDWORD]

/-- Witness for C2: the all-succeeding device, where the handle is that of
descriptor heap object 3 and the view covers buffer object 2. -/
theorem Init_success_view_witness :
    (ShaderCrashingAssertContext.Init devAllOk defaultContext).ctx.GetUAVCPUDescriptorHandle =
      some (descriptorHeapCPUStart devAllOk.descHeapId) ∧
    (ShaderCrashingAssertContext.Init devAllOk defaultContext).uavWrite = some
      { pResource := some devAllOk.bufId
        DestDescriptor := descriptorHeapCPUStart devAllOk.descHeapId
        desc :=
          { Format := DXGI_FORMAT_R32_TYPELESS
            ViewDimension := D3D12_UAV_DIMENSION_BUFFER
            BufferFlags := D3D12_BUFFER_UAV_FLAG_RAW
            BufferNumElements := 32 / sizeofDWORD } } ∧
    32 / sizeofDWORD = 8 ∧
    (32 / sizeofDWORD) * 4 = 32 ∧
    (ShaderCrashingAssertContext.Init devAllOk defaultContext).bufDesc = some
      { Dimension := D3D12_RESOURCE_DIMENSION_BUFFER
        Width := 32
        Height := 1
        DepthOrArraySize := 1
        MipLevels := 1
        SampleDescCount := 1
        Layout := D3D12_TEXTURE_LAYOUT_ROW_MAJOR
        Flags := D3D12_RESOURCE_FLAG_ALLOW_UNORDERED_ACCESS } ∧
    (ShaderCrashingAssertContext.Init devAllOk defaultContext).descHeapDesc = some
      { HeapType := D3D12_DESCRIPTOR_HEAP_TYPE_CBV_SRV_UAV
        NumDescriptors := 1 } :=
  Init_success_view devAllOk defaultContext (by decide)

/-- C4: on every exit path of `Init`, the release calls made are exactly one
release of each transient object that was successfully created — the buffer,
then the heap, each through its own (non-null) pointer — and a failing
initialization of a fresh context leaves the member descriptor-heap pointer
null, so no descriptor heap handle is usable for binding. -/
theorem Init_releases_transients (dev : Device) (c : ShaderCrashingAssertContext) :
    (ShaderCrashingAssertContext.Init dev c).events.filter Event.isRelease =
      (if SUCCEEDED dev.createHeapHr && SUCCEEDED dev.createPlacedResourceHr then
        [Event.release Site.buf (some dev.bufId)] else []) ++
      (if SUCCEEDED dev.createHeapHr then
        [Event.release Site.heap (some dev.heapId)] else []) ∧
    (c.m_pDescriptorHeap = none →
      SUCCEEDED (ShaderCrashingAssertContext.Init dev c).hr = false →
      (ShaderCrashingAssertContext.Init dev c).ctx.m_pDescriptorHeap = none) := by
  constructor
  · by_cases h1 : SUCCEEDED dev.createHeapHr = true <;>
      by_cases h2 : SUCCEEDED dev.createPlacedResourceHr = true <;>
        by_cases h3 : SUCCEEDED dev.createDescriptorHeapHr = true <;>
          simp [ShaderCrashingAssertContext.Init, h1, h2, h3, Event.isRelease]
  · intro hc hf
    by_cases h1 : SUCCEEDED dev.createHeapHr = true <;>
      by_cases h2 : SUCCEEDED dev.createPlacedResourceHr = true <;>
        by_cases h3 : SUCCEEDED dev.createDescriptorHeapHr = true <;>
          simp_all [ShaderCrashingAssertContext.Init]

/-- Witness for C4: the heap-creation-failure device on a fresh context
releases nothing and leaves the member pointer null, and the all-succeeding
device releases exactly buffer 2 then heap 1. -/
theorem Init_releases_transients_witness :
    (ShaderCrashingAssertContext.Init devHeapFail defaultContext).events.filter
      Event.isRelease = [] ∧
    (ShaderCrashingAssertContext.Init devHeapFail defaultContext).ctx.m_pDescriptorHeap =
      none ∧
    (ShaderCrashingAssertContext.Init devAllOk defaultContext).events.filter
      Event.isRelease =
      [Event.release Site.buf (some 2), Event.release Site.heap (some 1)] := by
  obtain ⟨ha, hb⟩ := Init_releases_transients devHeapFail defaultContext
  obtain ⟨hc, -⟩ := Init_releases_transients devAllOk defaultContext
  refine ⟨?_, hb rfl (by decide), ?_⟩
  · rw [ha]
    decide
  · rw [hc]
    decide

/-- C9: `Init` never calls a method through a null object pointer: every
`SetName`, `GetCPUDescriptorHandleForHeapStart` and `Release` call in the
trace has a non-null receiver; each `SetName` happens exactly when the
corresponding creation step succeeded; and the view is created exactly when
all prior steps succeeded. -/
theorem Init_no_null_method_calls (dev : Device) (c : ShaderCrashingAssertContext) :
    (∀ s p, Event.setName s p ∈ (ShaderCrashingAssertContext.Init dev c).events →
      p ≠ none) ∧
    (∀ p, Event.getHandleCall p ∈ (ShaderCrashingAssertContext.Init dev c).events →
      p ≠ none) ∧
    (∀ s p, Event.release s p ∈ (ShaderCrashingAssertContext.Init dev c).events →
      p ≠ none) ∧
    (Event.setName Site.heap (some dev.heapId) ∈
        (ShaderCrashingAssertContext.Init dev c).events ↔
      SUCCEEDED dev.createHeapHr = true) ∧
    (Event.setName Site.buf (some dev.bufId) ∈
        (ShaderCrashingAssertContext.Init dev c).events ↔
      (SUCCEEDED dev.createHeapHr && SUCCEEDED dev.createPlacedResourceHr) = true) ∧
    (Event.setName Site.descHeap (some dev.descHeapId) ∈
        (ShaderCrashingAssertContext.Init dev c).events ↔
      allSucceeded dev = true) ∧
    ((ShaderCrashingAssertContext.Init dev c).uavWrite.isSome = true ↔
      allSucceeded dev = true) := by
  by_cases h1 : SUCCEEDED dev.createHeapHr = true <;>
    by_cases h2 : SUCCEEDED dev.createPlacedResourceHr = true <;>
      by_cases h3 : SUCCEEDED dev.createDescriptorHeapHr = true <;>
        simp [ShaderCrashingAssertContext.Init, allSucceeded, h1, h2, h3,
          getCPUDescriptorHandleForHeapStart] <;>
          aesop

/-- Witness for C9 at the all-succeeding device: the buffer `SetName` call in
the trace has the non-null receiver 2, and the view was created. -/
theorem Init_no_null_method_calls_witness :
    Event.setName Site.buf (some 2) ∈
      (ShaderCrashingAssertContext.Init devAllOk defaultContext).events ∧
    (some 2 : Option Nat) ≠ none ∧
    (ShaderCrashingAssertContext.Init devAllOk defaultContext).uavWrite.isSome = true := by
  obtain ⟨ha, -, -, -, hb, -, hc⟩ :=
    Init_no_null_method_calls devAllOk defaultContext
  exact ⟨hb.mpr (by decide), ha Site.buf (some 2) (hb.mpr (by decide)), hc.mpr (by decide)⟩

/-- C8: a second successful `Init` on the same context overwrites
`m_pDescriptorHeap` with the newly created descriptor heap, and the previous
owned handle is never released during the second run (its pointer appears in
no `Release` call); the context has no field other than `m_pDescriptorHeap`,
so nothing else is retained between calls. -/
theorem Init_reinit_overwrites (dev1 dev2 : Device)
    (h1 : allSucceeded dev1 = true) (h2 : allSucceeded dev2 = true)
    (hh : dev1.descHeapId ≠ dev2.heapId) (hb : dev1.descHeapId ≠ dev2.bufId) :
    (ShaderCrashingAssertContext.Init dev1 defaultContext).ctx.m_pDescriptorHeap =
      some dev1.descHeapId ∧
    (ShaderCrashingAssertContext.Init dev2
        (ShaderCrashingAssertContext.Init dev1 defaultContext).ctx).ctx.m_pDescriptorHeap =
      some dev2.descHeapId ∧
    (∀ s, Event.release s (some dev1.descHeapId) ∉
      (ShaderCrashingAssertContext.Init dev2
        (ShaderCrashingAssertContext.Init dev1 defaultContext).ctx).events) ∧
    (∀ c1 c2 : ShaderCrashingAssertContext,
      c1.m_pDescriptorHeap = c2.m_pDescriptorHeap → c1 = c2) := by
  simp only [allSucceeded, Bool.and_eq_true] at h1 h2
  obtain ⟨⟨h1a, h1b⟩, h1c⟩ := h1
  obtain ⟨⟨h2a, h2b⟩, h2c⟩ := h2
  refine ⟨?_, ?_, ?_, ?_⟩
  · simp [ShaderCrashingAssertContext.Init, h1a, h1b, h1c]
  · simp [ShaderCrashingAssertContext.Init, h1a, h1b, h1c, h2a, h2b, h2c]
  · intro s
    simp [ShaderCrashingAssertContext.Init, h1a, h1b, h1c, h2a, h2b, h2c, hh, hb]
  · intro c1 c2 h
    cases c1
    cases c2
    simpa using h

/-- Witness for C8: two all-succeeding devices with distinct object ids; the
handle 3 owned after the first run is overwritten by 6 and never released. -/
theorem Init_reinit_overwrites_witness :
    (ShaderCrashingAssertContext.Init devAllOk defaultContext).ctx.m_pDescriptorHeap =
      some 3 ∧
    (ShaderCrashingAssertContext.Init devAllOk2
        (ShaderCrashingAssertContext.Init devAllOk defaultContext).ctx).ctx.m_pDescriptorHeap =
      some 6 ∧
    Event.release Site.heap (some 3) ∉
      (ShaderCrashingAssertContext.Init devAllOk2
        (ShaderCrashingAssertContext.Init devAllOk defaultContext).ctx).events := by
  obtain ⟨ha, hbb, hc, -⟩ :=
    Init_reinit_overwrites devAllOk devAllOk2 (by decide) (by decide) (by decide) (by decide)
  exact ⟨ha, hbb, hc Site.heap⟩

end SCA

namespace SCA

/-! ## Claim theorems: HLSL half -/

/-- C1: executing `SHADER_CRASHING_ASSERT(expr)` stores the 32-bit sentinel
`0x23898f4a` at byte offset 0 of the bound buffer iff `expr` is false (the
store touches no other word); if `expr` is true nothing is stored and the
buffer is unchanged; and after any sequence of invocations of which at least
one had a false condition, the first word equals the sentinel, regardless of
how many invocations evaluated their condition true. -/
theorem SHADER_CRASHING_ASSERT_correct (expr : Bool) (b : BufferState) :
    (expr = false →
      SHADER_CRASHING_ASSERT expr b = Store b 0 SCA_SENTINEL ∧
      SHADER_CRASHING_ASSERT expr b 0 = SCA_SENTINEL) ∧
    (expr = true → SHADER_CRASHING_ASSERT expr b = b) ∧
    (∀ a, a ≠ 0 → SHADER_CRASHING_ASSERT expr b a = b a) ∧
    (∀ conds : List Bool, false ∈ conds →
      runAsserts conds b 0 = SCA_SENTINEL) := by
  refine ⟨fun he => ?_, fun he => ?_, fun a ha => ?_, fun conds hf => ?_⟩
  · subst he
    exact ⟨rfl, Store_sentinel_at_zero b⟩
  · subst he
    rfl
  · cases expr
    · simpa [SHADER_CRASHING_ASSERT] using Store_sentinel_other b a ha
    · rfl
  · induction conds generalizing b with
    | nil => cases hf
    | cons c cs ih =>
      simp only [runAsserts, List.foldl_cons]
      cases c with
      | false =>
        exact runAsserts_preserve cs _
          (by simp [SHADER_CRASHING_ASSERT, Store_sentinel_at_zero])
      | true =>
        have hf' : false ∈ cs := by simpa using hf
        simpa [runAsserts, SHADER_CRASHING_ASSERT] using
          ih (SHADER_CRASHING_ASSERT true b) hf'

/-- Witness for C1 at concrete inputs: an all-zero buffer, the failing branch,
the passing branch, a nonzero address, and the invocation sequence
`[true, false, true]`. -/
theorem SHADER_CRASHING_ASSERT_correct_witness :
    SHADER_CRASHING_ASSERT false (fun _ => 0) 0 = SCA_SENTINEL ∧
    SHADER_CRASHING_ASSERT true (fun _ => 0) = (fun _ => 0) ∧
    SHADER_CRASHING_ASSERT false (fun _ => 0) 4 = 0 ∧
    runAsserts [true, false, true] (fun _ => 0) 0 = SCA_SENTINEL :=
  ⟨((SHADER_CRASHING_ASSERT_correct false (fun _ => 0)).1 rfl).2,
   (SHADER_CRASHING_ASSERT_correct true (fun _ => 0)).2.1 rfl,
   (SHADER_CRASHING_ASSERT_correct false (fun _ => 0)).2.2.1 4 (by decide),
   (SHADER_CRASHING_ASSERT_correct false (fun _ => 0)).2.2.2 [true, false, true]
     (by decide)⟩

/-- C5: `SHADER_CRASHING_ASSERT_RESOURCE` declares the shared buffer as a
`globallycoherent` raw byte-addressable read/write buffer under the fixed
reserved name.  (The visibility consequence — the write not being cached or
reordered out of sight of a post-crash read — is the HLSL-defined semantics
of the `globallycoherent` qualifier, which the declaration carries.) -/
theorem SHADER_CRASHING_ASSERT_RESOURCE_globallycoherent :
    SHADER_CRASHING_ASSERT_RESOURCE.globallycoherent = true ∧
    SHADER_CRASHING_ASSERT_RESOURCE.resType = HLSLResourceType.RWByteAddressBuffer ∧
    SHADER_CRASHING_ASSERT_RESOURCE.name = "ShaderCrashingAssertResource1" :=
  ⟨rfl, rfl, rfl⟩

/-- C7: executing the assertion's sentinel store N ≥ 1 times is observably
equivalent to executing it once, and leaves the buffer's first word equal to
the sentinel. -/
theorem assert_store_idempotent (n : Nat) (hn : 1 ≤ n) (b : BufferState) :
    (SHADER_CRASHING_ASSERT false)^[n] b = SHADER_CRASHING_ASSERT false b ∧
    ((SHADER_CRASHING_ASSERT false)^[n] b) 0 = SCA_SENTINEL := by
  obtain ⟨m, rfl⟩ : ∃ m, n = m + 1 := ⟨n - 1, by omega⟩
  have h : (SHADER_CRASHING_ASSERT false)^[m + 1] b =
      SHADER_CRASHING_ASSERT false b := by
    rw [Function.iterate_succ_apply]
    exact Function.iterate_fixed (assert_false_idem b) m
  refine ⟨h, ?_⟩
  rw [h]
  simpa [SHADER_CRASHING_ASSERT] using Store_sentinel_at_zero b

/-- Witness for C7: three consecutive sentinel stores on the all-zero buffer
collapse to one. -/
theorem assert_store_idempotent_witness :
    (SHADER_CRASHING_ASSERT false)^[3] (fun _ => 0) =
      SHADER_CRASHING_ASSERT false (fun _ => 0) ∧
    ((SHADER_CRASHING_ASSERT false)^[3] (fun _ => 0)) 0 = SCA_SENTINEL :=
  assert_store_idempotent 3 (by decide) (fun _ => 0)

/-- C10: each execution of the assertion construct evaluates its condition
expression exactly once, whether the condition comes out true or false: the
expression's state effect is applied exactly once, the resulting buffer is
the pure assertion applied to the single evaluated value, and an evaluation
counter advances by exactly one. -/
theorem assert_condition_evaluated_once {σ : Type} (cond : σ → Bool × σ)
    (s : σ) (b : BufferState) :
    (SHADER_CRASHING_ASSERT_eval cond s b).2 = (cond s).2 ∧
    (SHADER_CRASHING_ASSERT_eval cond s b).1 =
      SHADER_CRASHING_ASSERT (cond s).1 b ∧
    (∀ (e : Bool) (n : Nat),
      (SHADER_CRASHING_ASSERT_eval (fun k => (e, k + 1)) n b).2 = n + 1) := by
  refine ⟨?_, ?_, fun e n => ?_⟩
  · unfold SHADER_CRASHING_ASSERT_eval
    cases h : (cond s).1 <;> simp [h]
  · unfold SHADER_CRASHING_ASSERT_eval SHADER_CRASHING_ASSERT
    cases h : (cond s).1 <;> simp [h]
  · unfold SHADER_CRASHING_ASSERT_eval
    cases e <;> simp

end SCA
